import Mathlib

/-!
Verification of the compile-time reflection (`introwospection`) core and the
raw-pointer utility layer of `library/core` in this repository.

The development shallowly embeds the relevant Rust code:

* machine integers are `Nat`/`Int` with explicit wrapping modulo `2 ^ 64`
  (the code targets a 64-bit `usize`/`isize`);
* a raw pointer is an (allocation-provenance, address) pair, following the
  strict-provenance model the pointer methods are written against;
* fallible computations return a `RustOutcome`, distinguishing a normal
  value, a `panic!`/failed `assert!`, and undefined behavior of an
  intrinsic whose documented preconditions are violated;
* the descriptor traits of `core::introwospection` become Lean structures
  whose defaulted fields mirror the traits' defaulted associated constants
  and types, and the visitor traits become structures of functions whose
  defaulted `*_mut` fields mirror the traits' provided methods.
-/

/-- Width of `usize`/`isize` on the modelled target. -/
def usizeBITS : Nat := 64

/-- The modulus `2 ^ 64` of `usize` arithmetic. -/
def usizeMOD : Nat := 2 ^ usizeBITS

/-- The value `usize::MAX`. -/
def usizeMAXv : Nat := usizeMOD - 1

/-- The value `isize::MAX as usize`, i.e. `2 ^ 63 - 1`. -/
def isizeMAXv : Nat := 2 ^ 63 - 1

/-- Wrap an unbounded integer into the `usize` range `[0, 2^64)`. -/
def usizeWrap (z : Int) : Nat := (z % (usizeMOD : Int)).toNat

/-- Wrap an unbounded integer into the `isize` range `[-2^63, 2^63)`
(two's-complement wrapping, as in `isize::wrapping_sub` and `as isize`). -/
def isizeWrap (z : Int) : Int := (z + 2 ^ 63) % (usizeMOD : Int) - 2 ^ 63

/-- The value of the cast `n as isize` for a `usize` value `n`. -/
def usizeAsIsize (n : Nat) : Int := isizeWrap (n : Int)

/-- Outcome of running a piece of Rust code: a normal value, a
`panic!`/failed `assert!`, or undefined behavior (an `unsafe` intrinsic
called with its documented preconditions violated). -/
inductive RustOutcome (α : Type) where
  | ok : α → RustOutcome α
  | panicked : RustOutcome α
  | ub : RustOutcome α
  deriving DecidableEq, Repr

/-- A raw pointer `*const T` / `*mut T` in the strict-provenance model the
source is written against (`const_ptr.rs` lines 130-143): an allocation
identity (provenance) together with the address it points at.  The pointee
type `T` does not influence the representation; operations whose semantics
depend on `size_of::<T>()` take that size as an explicit `sz` argument. -/
structure Ptr where
  prov : Nat
  addr : Nat
  deriving DecidableEq, Repr

/-- Model of `<*const T>::cast::<U>` (and the `as`-casts between raw pointer types):
changes only the static type, which the model erases. -/
def Ptr.cast (p : Ptr) : Ptr := p

/-- Model of `<*const T>::offset(count)`, i.e. `intrinsics::offset`: advance by
`count` elements of size `sz`.  The address arithmetic wraps at `2 ^ 64`;
leaving the allocated region or overflowing an `isize` byte count is
undefined behavior (a documented precondition, not a runtime check), which
theorems express as hypotheses. -/
def Ptr.offset (sz : Nat) (p : Ptr) (count : Int) : Ptr :=
  { p with addr := usizeWrap ((p.addr : Int) + count * sz) }

/-- Model of `<*const T>::wrapping_offset(count)`, i.e. `intrinsics::arith_offset`:
the same address arithmetic as `offset`, always safe to compute, and the
result keeps the provenance of `p`. -/
def Ptr.wrapping_offset (sz : Nat) (p : Ptr) (count : Int) : Ptr :=
  { p with addr := usizeWrap ((p.addr : Int) + count * sz) }

/-- Model of `<*const T>::add(count)`: `self.offset(count as isize)`. -/
def Ptr.add (sz : Nat) (p : Ptr) (count : Nat) : Ptr :=
  p.offset sz (usizeAsIsize count)

/-- Model of `<*const T>::addr`: the address portion of the pointer. -/
def Ptr.address (p : Ptr) : Nat := p.addr

/-- Model of `<*const T>::with_addr(addr)` (`const_ptr.rs` lines 169-184): cast the
target address and the pointer's own address to `isize`, form the wrapping
difference, and apply it with `wrapping_offset` on the `u8`-cast pointer -
"the canonical desugarring of this operation". -/
def Ptr.with_addr (p : Ptr) (addr : Nat) : Ptr :=
  let self_addr := usizeAsIsize p.address
  let dest_addr := usizeAsIsize addr
  let offset := isizeWrap (dest_addr - self_addr)
  ((p.cast.wrapping_offset 1 offset).cast)

/-- Model of `<*const T>::offset_from(origin)` (`const_ptr.rs` lines 552-560):
`assert!(0 < pointee_size && pointee_size <= isize::MAX as usize)`, then the
`ptr_offset_from` intrinsic, whose documented preconditions (same allocated
object and provenance, byte distance an exact multiple of the element size,
byte distance no larger than `isize::MAX`) make the result undefined
behavior when violated. -/
def Ptr.offset_from (sz : Nat) (p origin : Ptr) : RustOutcome Int :=
  if 0 < sz ∧ sz ≤ isizeMAXv then
    if p.prov = origin.prov
        ∧ (sz : Int) ∣ ((p.addr : Int) - (origin.addr : Int))
        ∧ ((p.addr : Int) - (origin.addr : Int)).natAbs ≤ isizeMAXv then
      .ok (((p.addr : Int) - (origin.addr : Int)) / sz)
    else .ub
  else .panicked

/-- Whether evaluation happens ahead of time (const evaluation, the first
branch of `intrinsics::const_eval_select`) or at runtime (its second
branch). -/
inductive EvalMode where
  | ctfe : EvalMode
  | runtime : EvalMode
  deriving DecidableEq, Repr

/-- Modelled from the spec: `usize::is_power_of_two` (the `core::num`
implementation is not under `src/`), true exactly for the powers of two.
The bound `k ≤ n` makes the existential decidable and excludes nothing,
since `k < 2 ^ k = n`. -/
def usizeIsPowerOfTwo (n : Nat) : Bool := decide (∃ k, k ≤ n ∧ n = 2 ^ k)

/-- Model of `<*const T>::align_offset(align)` (`const_ptr.rs` lines 1051-1074):
panic unless `align` is a power of two, then `const_eval_select` between
`ctfe_impl` (which always returns the `usize::MAX` sentinel) and `rt_impl`
(which calls the free function `align_offset` of `ptr/mod.rs`).  That free
function is not under `src/`; it is modelled from the spec as an arbitrary
total runtime computation `rtImpl`, which the claims do not constrain. -/
def Ptr.align_offset (rtImpl : Ptr → Nat → Nat) (mode : EvalMode) (p : Ptr)
    (align : Nat) : RustOutcome Nat :=
  if usizeIsPowerOfTwo align then
    match mode with
    | .ctfe => .ok usizeMAXv
    | .runtime => .ok (rtImpl p align)
  else .panicked

/-- The runtime behavior of `==` on thin raw pointers: comparison of the
addresses (provenance does not take part in runtime pointer equality). -/
def Ptr.runtimeEq (a b : Ptr) : Bool := a.addr == b.addr

/-- Modelled from the spec: the `intrinsics::ptr_guaranteed_eq` intrinsic
(not under `src/`).  "At runtime this function behaves like `self == other`.
However, in some contexts (e.g., compile-time evaluation), it is not always
possible to determine equality of two pointers, so this function may
spuriously return `false` for pointers that later actually turn out to be
equal.  But when it returns `true`, the pointers are guaranteed to be
equal."  At const evaluation absolute addresses are unknown, so equality can
be guaranteed only for pointers that agree as (provenance, address) values. -/
def ptr_guaranteed_eq (mode : EvalMode) (a b : Ptr) : Bool :=
  match mode with
  | .runtime => a.runtimeEq b
  | .ctfe => a == b

/-- Model of `<*const T>::guaranteed_eq(other)` (`const_ptr.rs` lines 586-591):
directly the `ptr_guaranteed_eq` intrinsic. -/
def Ptr.guaranteed_eq (mode : EvalMode) (a b : Ptr) : Bool :=
  ptr_guaranteed_eq mode a b

/-- Model of `<*const T>::as_ref` (`const_ptr.rs` lines 196 ff.): `None` for the
null pointer, otherwise a reference to the pointee (a reference is
represented by the pointer it is backed by). -/
def Ptr.as_ref (p : Ptr) : Option Ptr :=
  if p.addr = 0 then none else some p

/-- Model of `<*mut T>::as_mut` (the `mut_ptr.rs` twin of `as_ref`, reached from
`get_field_mut`): `None` for the null pointer, otherwise a mutable
reference to the pointee. -/
def Ptr.as_mut (p : Ptr) : Option Ptr :=
  if p.addr = 0 then none else some p

/-- Model of `Option::unwrap_unchecked`: undefined behavior on `None`. -/
def unwrapUnchecked {α : Type} : Option α → RustOutcome α
  | some a => .ok a
  | none => .ub

/-- Byte-addressed memory, for relating offset-based and name-based field
access. -/
def Mem : Type := Nat → Nat

/-! ## The `core::introwospection` data model

Rust traits with defaulted associated constants and types become Lean
structures with defaulted fields; an implementation of a trait is a value
of the structure.  The Rust associated type named `Type` is called `Ty`
(Lean reserves `Type`); all other names follow the source. -/

/-- The enum `core::introwospection::AdtId` (`introwospection.rs` lines 132-159). -/
inductive AdtId where
  | Struct : AdtId
  | Union : AdtId
  | Enum : AdtId
  | Tuple : AdtId
  | Array : AdtId
  | Slice : AdtId
  | Function : AdtId
  deriving DecidableEq, Repr

/-- The struct `core::introwospection::NoType` (`introwospection.rs` line 182): an
empty structure whose sole job is to indicate when a variant is
unspecified. -/
structure NoType where
  deriving DecidableEq, Repr

/-- The struct `core::introwospection::AttributeDescriptor` (`introwospection.rs`
lines 186-194). -/
structure AttributeDescriptor where
  name : String
  value : Option String
  deriving DecidableEq, Repr

/-- Model of `core::mem::Discriminant<T>`: an opaque value identifying the active
variant of an enumeration type `T`. -/
structure Discriminant (T : Type) where
  val : Nat

/-- Trait `AdtDescriptor` (`introwospection.rs` lines 197-216):
`ID`, `NAME`, and `ATTRIBUTES` defaulting to the empty slice. -/
structure AdtDescriptor where
  ID : AdtId
  NAME : String
  ATTRIBUTES : List AttributeDescriptor := []

/-- Trait `StructDescriptor` (`introwospection.rs` lines 219-224): extends
`AdtDescriptor` with the described type and `FIELD_COUNT` defaulting
to 0. -/
structure StructDescriptor extends AdtDescriptor where
  Ty : Type
  FIELD_COUNT : Nat := 0

/-- Trait `EnumDescriptor` (`introwospection.rs` lines 227-245): extends
`AdtDescriptor` with the described type, `VariantsType` defaulting to
`NoType`, and `VARIANT_COUNT` defaulting to 0. -/
structure EnumDescriptor extends AdtDescriptor where
  Ty : Type
  VariantsType : Type := NoType
  VARIANT_COUNT : Nat := 0

/-- Trait `FunctionDescriptor` (`introwospection.rs` lines 248-267):
extends `AdtDescriptor` with `ParametersType` defaulting to `NoType`, the
return type, and `PARAMETER_COUNT` defaulting to 0. -/
structure FunctionDescriptor extends AdtDescriptor where
  ParametersType : Type := NoType
  ReturnType : Type
  PARAMETER_COUNT : Nat := 0

/-- Trait `ParameterDescriptor<const PARAMETER_INDEX: usize>`
(`introwospection.rs` lines 270-293).  The const generic parameter is `I`;
the associated constant `PARAMETER_INDEX` defaults to it. -/
structure ParameterDescriptor (I : Nat) where
  OwnerType : Type
  Ty : Type
  PARAMETER_INDEX : Nat := I
  NAME : String
  ATTRIBUTES : List AttributeDescriptor := []

/-- Trait `FieldDescriptor<const DECLARATION_INDEX: usize>`
(`introwospection.rs` lines 299-326).  The const generic parameter is `I`;
the associated constant `DECLARATION_INDEX` defaults to it; `BYTE_OFFSET`
is mandatory (no default). -/
structure FieldDescriptor (I : Nat) where
  OwnerType : Type
  Ty : Type
  DECLARATION_INDEX : Nat := I
  NAME : String
  BYTE_OFFSET : Nat
  ATTRIBUTES : List AttributeDescriptor := []

/-- Trait `VariantDescriptor<const DECLARATION_INDEX: usize>`
(`introwospection.rs` lines 332-392).  `OwnerType` carries its
`EnumDescriptor` bound; `FieldsType` and `IntType` default to `NoType`;
the associated constant `DECLARATION_INDEX` defaults to the const generic
parameter `I`; `DISCRIMINANT` is mandatory; `FIELD_COUNT` defaults to 0 and
`INTEGER_VALUE` to `None`. -/
structure VariantDescriptor (I : Nat) where
  OwnerType : EnumDescriptor
  FieldsType : Type := NoType
  IntType : Type := NoType
  DECLARATION_INDEX : Nat := I
  NAME : String
  DISCRIMINANT : Discriminant OwnerType.Ty
  FIELD_COUNT : Nat := 0
  INTEGER_VALUE : Option IntType := none
  ATTRIBUTES : List AttributeDescriptor := []

/-! ## The visitor dispatch protocol

A visitor trait becomes a structure of functions over the visitor state
`V` with associated output type `Output`.  `&self` receivers become a `V`
argument; `&mut self` receivers become state passing, returning the new
state next to the output.  Each defaulted `*_mut` field carries the
provided method body of the source: re-dispatch to the immutable method on
the unmodified state. -/

/-- Trait `StructDescriptorVisitor` (`introwospection.rs` lines 396-418);
`visit_struct_mut` defaults to `Self::visit_struct::<Type>(&self)`. -/
structure StructDescriptorVisitor (V Output : Type) where
  visit_struct : V → StructDescriptor → Output
  visit_struct_mut : V → StructDescriptor → Output × V :=
    fun self ty => (visit_struct self ty, self)

/-- Trait `EnumDescriptorVisitor` (`introwospection.rs` lines 422-444);
`visit_enum_mut` defaults to `Self::visit_enum::<Type>(&self)`. -/
structure EnumDescriptorVisitor (V Output : Type) where
  visit_enum : V → EnumDescriptor → Output
  visit_enum_mut : V → EnumDescriptor → Output × V :=
    fun self ty => (visit_enum self ty, self)

/-- Trait `FunctionDescriptorVisitor` (`introwospection.rs` lines 448-470);
`visit_function_mut` defaults to `Self::visit_function::<Type>(&self)`. -/
structure FunctionDescriptorVisitor (V Output : Type) where
  visit_function : V → FunctionDescriptor → Output
  visit_function_mut : V → FunctionDescriptor → Output × V :=
    fun self ty => (visit_function self ty, self)

/-- Trait `ParameterDescriptorVisitor` (`introwospection.rs` lines
475-496); `visit_parameter_mut` defaults to
`Self::visit_parameter::<Type, DECLARATION_INDEX>(&self)`. -/
structure ParameterDescriptorVisitor (V Output : Type) where
  visit_parameter : V → (I : Nat) → ParameterDescriptor I → Output
  visit_parameter_mut : V → (I : Nat) → ParameterDescriptor I → Output × V :=
    fun self I ty => (visit_parameter self I ty, self)

/-- Trait `FieldDescriptorVisitor` (`introwospection.rs` lines 501-523);
`visit_field_mut` defaults to
`Self::visit_field::<Type, DECLARATION_INDEX>(&self)`. -/
structure FieldDescriptorVisitor (V Output : Type) where
  visit_field : V → (I : Nat) → FieldDescriptor I → Output
  visit_field_mut : V → (I : Nat) → FieldDescriptor I → Output × V :=
    fun self I ty => (visit_field self I ty, self)

/-- Trait `VariantDescriptorVisitor` (`introwospection.rs` lines 528-551);
`visit_variant_mut` defaults to
`Self::visit_variant::<Type, DECLARATION_INDEX>(&self)`. -/
structure VariantDescriptorVisitor (V Output : Type) where
  visit_variant : V → (I : Nat) → VariantDescriptor I → Output
  visit_variant_mut : V → (I : Nat) → VariantDescriptor I → Output × V :=
    fun self I ty => (visit_variant self I ty, self)

/-! ## Field address computation -/

/-- Model of `core::introwospection::get_field` (`introwospection.rs` lines
567-576): cast the owner reference to `*const u8`, `add` the descriptor's
`BYTE_OFFSET`, cast to the field type, `as_ref().unwrap_unchecked()`. -/
def get_field {I : Nat} (Ty : FieldDescriptor I) (owner : Ptr) :
    RustOutcome Ptr :=
  unwrapUnchecked ((((owner.cast.add 1 Ty.BYTE_OFFSET).cast).as_ref))

/-- Model of `core::introwospection::get_field_mut` (`introwospection.rs` lines
579-590): the mutable twin of `get_field`, through
`as_mut().unwrap_unchecked()`. -/
def get_field_mut {I : Nat} (Ty : FieldDescriptor I) (owner : Ptr) :
    RustOutcome Ptr :=
  unwrapUnchecked ((((owner.cast.add 1 Ty.BYTE_OFFSET).cast).as_mut))

/-- Direct (named) field access: under the layout contract recorded by a
field descriptor, the named access `owner.field` reads the field's value
(decoded by `readT`) at `BYTE_OFFSET` bytes from the instance's base
address. -/
def namedFieldAccess {α : Type} (readT : Mem → Nat → α) (mem : Mem)
    (base byteOff : Nat) : α :=
  readT mem (base + byteOff)

/-! ## The `NoType` descriptor implementations -/

/-- Model of `impl AdtDescriptor for NoType` (`introwospection.rs` lines 714-717). -/
def NoType.adtDescriptor : AdtDescriptor where
  ID := AdtId.Struct
  NAME := "core::introwospection::NoType"

/-- Model of `impl StructDescriptor for NoType` (`introwospection.rs` lines
719-721): `Type = NoType`, every other member inherited or defaulted. -/
def NoType.structDescriptor : StructDescriptor where
  toAdtDescriptor := NoType.adtDescriptor
  Ty := NoType

/-! ## Concrete instances used as counterexamples and witnesses -/

/-- A field descriptor for the spec's `Meow::scratch_couch` example: field
index 1, byte offset 8 (the Lean types `Unit`/`Nat` stand for the Rust
owner and field types, which do not influence the address computation). -/
def meowFieldDescr : FieldDescriptor 1 where
  OwnerType := Unit
  Ty := Nat
  NAME := "scratch_couch"
  BYTE_OFFSET := 8

/-- A well-typed implementation of `FieldDescriptor<3>` that overrides the
defaulted `DECLARATION_INDEX` associated constant with the disagreeing
value 5 — nothing in the source rejects such an implementation. -/
def mismatchedFieldDescr : FieldDescriptor 3 where
  OwnerType := Unit
  Ty := Nat
  DECLARATION_INDEX := 5
  NAME := "purr_level"
  BYTE_OFFSET := 0

/-! ## Arithmetic helper lemmas -/

/-- The map `isizeWrap` preserves the residue modulo `2 ^ 64`. -/
theorem isizeWrap_emod (z : Int) :
    isizeWrap z % (usizeMOD : Int) = z % (usizeMOD : Int) := by
  unfold isizeWrap
  conv_lhs => rw [Int.sub_emod, Int.emod_emod_of_dvd _ dvd_rfl]
  rw [← Int.sub_emod, add_sub_cancel_right]

/-- Adding a `usize`-cast-to-`isize` byte count that is at most
`isize::MAX` to an address, when the exact sum fits in a `usize`, performs
the exact addition. -/
theorem usizeWrap_add_small (A off : Nat) (hoff : off ≤ isizeMAXv)
    (hfit : A + off < usizeMOD) :
    usizeWrap ((A : Int) + usizeAsIsize off * ((1 : Nat) : Int)) = A + off := by
  unfold usizeWrap usizeAsIsize isizeWrap usizeMOD usizeBITS isizeMAXv at *
  norm_num at *
  omega

/-- Unfolding lemma: `cast` only changes the static type. -/
theorem Ptr.cast_eq (p : Ptr) : p.cast = p := rfl

/-- Unfolding lemma: `address` is the `addr` projection. -/
theorem Ptr.address_eq (p : Ptr) : p.address = p.addr := rfl

/-- The address computed by `wrapping_offset`. -/
theorem Ptr.wrapping_offset_addr (sz : Nat) (p : Ptr) (count : Int) :
    (p.wrapping_offset sz count).addr = usizeWrap ((p.addr : Int) + count * sz) :=
  rfl

/-- Unfolding lemma: `wrapping_offset` keeps the provenance. -/
theorem Ptr.wrapping_offset_prov (sz : Nat) (p : Ptr) (count : Int) :
    (p.wrapping_offset sz count).prov = p.prov := rfl

/-- The address computed by `offset`. -/
theorem Ptr.offset_addr (sz : Nat) (p : Ptr) (count : Int) :
    (p.offset sz count).addr = usizeWrap ((p.addr : Int) + count * sz) := rfl

/-- Unfolding lemma: `offset` keeps the provenance. -/
theorem Ptr.offset_prov (sz : Nat) (p : Ptr) (count : Int) :
    (p.offset sz count).prov = p.prov := rfl

/-- The executable power-of-two test agrees with the mathematical
predicate. -/
theorem usizeIsPowerOfTwo_iff (n : Nat) :
    usizeIsPowerOfTwo n = true ↔ ∃ k, n = 2 ^ k := by
  unfold usizeIsPowerOfTwo
  rw [decide_eq_true_iff]
  constructor
  · rintro ⟨k, -, rfl⟩
    exact ⟨k, rfl⟩
  · rintro ⟨k, rfl⟩
    exact ⟨k, Nat.le_of_lt (Nat.lt_two_pow k), rfl⟩

/-! ## The claims -/

/-- C3: `align_offset` with a non-power-of-two alignment panics (in const
evaluation the panic is a compile-time rejection) and never silently
returns an offset; with a power-of-two alignment it never panics, in either
evaluation mode and whatever the runtime implementation computes. -/
theorem align_offset_pow2_gate (rtImpl : Ptr → Nat → Nat) (mode : EvalMode)
    (p : Ptr) (align : Nat) :
    (¬ (∃ k, align = 2 ^ k) →
      Ptr.align_offset rtImpl mode p align = RustOutcome.panicked)
    ∧ ((∃ k, align = 2 ^ k) →
      ∃ v, Ptr.align_offset rtImpl mode p align = RustOutcome.ok v) := by
  constructor
  · intro h
    unfold Ptr.align_offset
    rw [if_neg (fun hb => h ((usizeIsPowerOfTwo_iff align).mp hb))]
  · intro h
    unfold Ptr.align_offset
    rw [if_pos ((usizeIsPowerOfTwo_iff align).mpr h)]
    cases mode
    · exact ⟨usizeMAXv, rfl⟩
    · exact ⟨rtImpl p align, rfl⟩

/-- Witness for C3 at `align = 6` (not a power of two: panic) and
`align = 8` (a power of two: a value is returned). -/
theorem align_offset_pow2_gate_witness :
    Ptr.align_offset (fun _ _ => 0) EvalMode.runtime ⟨0, 3⟩ 6
        = RustOutcome.panicked
    ∧ ∃ v, Ptr.align_offset (fun _ _ => 0) EvalMode.runtime ⟨0, 3⟩ 8
        = RustOutcome.ok v :=
  ⟨(align_offset_pow2_gate (fun _ _ => 0) EvalMode.runtime ⟨0, 3⟩ 6).1
      (fun hex => absurd ((usizeIsPowerOfTwo_iff 6).mpr hex) (by decide)),
   (align_offset_pow2_gate (fun _ _ => 0) EvalMode.runtime ⟨0, 3⟩ 8).2 ⟨3, rfl⟩⟩

/-- C4: `offset_from` with a zero-sized element type fails outright (the
`assert!` panics, a compile-time rejection in const evaluation) instead of
returning a distance; for every element size in `(0, isize::MAX]` the size
check passes, so the call never panics. -/
theorem offset_from_zst_rejected (sz : Nat) (p origin : Ptr) :
    (sz = 0 → Ptr.offset_from sz p origin = RustOutcome.panicked)
    ∧ (0 < sz → sz ≤ isizeMAXv →
        Ptr.offset_from sz p origin ≠ RustOutcome.panicked) := by
  constructor
  · rintro rfl
    simp [Ptr.offset_from]
  · intro h1 h2
    unfold Ptr.offset_from
    rw [if_pos ⟨h1, h2⟩]
    split <;> simp

/-- Witness for C4: element size 0 panics, element size 4 does not. -/
theorem offset_from_zst_rejected_witness :
    Ptr.offset_from 0 ⟨0, 8⟩ ⟨0, 0⟩ = RustOutcome.panicked
    ∧ Ptr.offset_from 4 ⟨0, 8⟩ ⟨0, 0⟩ ≠ RustOutcome.panicked :=
  ⟨(offset_from_zst_rejected 0 ⟨0, 8⟩ ⟨0, 0⟩).1 rfl,
   (offset_from_zst_rejected 4 ⟨0, 8⟩ ⟨0, 0⟩).2 (by decide) (by decide)⟩

/-- C5: under const (ahead-of-time) evaluation, `align_offset` with any
power-of-two alignment returns the sentinel `usize::MAX` ("no usable
offset"), never a usable offset, whatever the runtime implementation would
have computed. -/
theorem align_offset_ctfe_sentinel (rtImpl : Ptr → Nat → Nat) (p : Ptr)
    (align : Nat) (h : ∃ k, align = 2 ^ k) :
    Ptr.align_offset rtImpl EvalMode.ctfe p align = RustOutcome.ok usizeMAXv := by
  unfold Ptr.align_offset
  rw [if_pos ((usizeIsPowerOfTwo_iff align).mpr h)]

/-- Witness for C5 at `align = 16`. -/
theorem align_offset_ctfe_sentinel_witness :
    Ptr.align_offset (fun _ _ => 0) EvalMode.ctfe ⟨1, 5⟩ 16
      = RustOutcome.ok usizeMAXv :=
  align_offset_ctfe_sentinel (fun _ _ => 0) ⟨1, 5⟩ 16 ⟨4, rfl⟩

/-- C6: `offset_from` is the exact inverse of `offset`: whenever
`q = p.offset(n)` stays within the same allocated region (formalized by the
documented preconditions of `offset`: the byte count `n * sz` fits in an
`isize` and the exact resulting address neither underflows nor leaves the
`usize` range), `q.offset_from(p)` returns `n`. -/
theorem offset_from_offset_inverse (sz : Nat) (p : Ptr) (n : Int)
    (hsz : 0 < sz) (hszmax : sz ≤ isizeMAXv)
    (hbytes : (n * sz).natAbs ≤ isizeMAXv)
    (hlo : 0 ≤ (p.addr : Int) + n * sz)
    (hhi : (p.addr : Int) + n * sz < (usizeMOD : Int)) :
    (Ptr.offset sz p n).offset_from sz p = RustOutcome.ok n := by
  have haddr : ((Ptr.offset sz p n).addr : Int) = (p.addr : Int) + n * sz := by
    show ((usizeWrap ((p.addr : Int) + n * sz) : Nat) : Int) = _
    unfold usizeWrap
    rw [Int.toNat_of_nonneg
      (Int.emod_nonneg _ (by norm_num [usizeMOD, usizeBITS]))]
    exact Int.emod_eq_of_lt hlo hhi
  have hprov : (Ptr.offset sz p n).prov = p.prov := rfl
  have hd : ((Ptr.offset sz p n).addr : Int) - (p.addr : Int) = n * sz := by
    rw [haddr]; ring
  unfold Ptr.offset_from
  rw [if_pos ⟨hsz, hszmax⟩,
    if_pos ⟨hprov, by rw [hd]; exact dvd_mul_left _ _, by rw [hd]; exact hbytes⟩,
    RustOutcome.ok.injEq, hd]
  exact Int.mul_ediv_cancel n (by exact_mod_cast hsz.ne')

/-- Witness for C6: `p = (0, 16)`, element size 4, count 3; the round trip
returns 3. -/
theorem offset_from_offset_inverse_witness :
    (Ptr.offset 4 ⟨0, 16⟩ 3).offset_from 4 ⟨0, 16⟩ = RustOutcome.ok 3 :=
  offset_from_offset_inverse 4 ⟨0, 16⟩ 3 (by decide) (by decide) (by decide)
    (by decide) (by decide)

/-- C7: `guaranteed_eq` is reflexive in every evaluation mode; a `true`
answer guarantees runtime equality of the pointers; and a `false` answer
guarantees nothing — there are runtime-equal pointers (same address,
different provenance) on which const evaluation answers `false`. -/
theorem guaranteed_eq_refl_and_sound :
    (∀ (mode : EvalMode) (a : Ptr), Ptr.guaranteed_eq mode a a = true)
    ∧ (∀ (mode : EvalMode) (a b : Ptr),
        Ptr.guaranteed_eq mode a b = true → a.runtimeEq b = true)
    ∧ (∃ (mode : EvalMode) (a b : Ptr),
        a.runtimeEq b = true ∧ Ptr.guaranteed_eq mode a b = false) := by
  refine ⟨?_, ?_, ?_⟩
  · intro mode a
    cases mode <;>
      simp [Ptr.guaranteed_eq, ptr_guaranteed_eq, Ptr.runtimeEq]
  · intro mode a b h
    cases mode
    · have hab : a = b := by
        simpa [Ptr.guaranteed_eq, ptr_guaranteed_eq] using h
      simp [hab, Ptr.runtimeEq]
    · simpa [Ptr.guaranteed_eq, ptr_guaranteed_eq] using h
  · exact ⟨EvalMode.ctfe, ⟨0, 5⟩, ⟨1, 5⟩, by decide, by decide⟩

/-- Witness for C7: reflexivity and soundness applied at a concrete
pointer. -/
theorem guaranteed_eq_refl_and_sound_witness :
    Ptr.guaranteed_eq EvalMode.ctfe ⟨2, 7⟩ ⟨2, 7⟩ = true
    ∧ Ptr.runtimeEq ⟨2, 7⟩ ⟨2, 7⟩ = true :=
  ⟨guaranteed_eq_refl_and_sound.1 EvalMode.ctfe ⟨2, 7⟩,
   guaranteed_eq_refl_and_sound.2.1 EvalMode.ctfe ⟨2, 7⟩ ⟨2, 7⟩
     (guaranteed_eq_refl_and_sound.1 EvalMode.ctfe ⟨2, 7⟩)⟩

set_option maxRecDepth 4096 in
/-- C8: `with_addr` equals the wrapping-offset desugaring
`p.cast::<u8>().wrapping_offset((a as isize).wrapping_sub(p.addr() as
isize)).cast::<T>()`; the resulting pointer's address is exactly the target
address while its provenance is that of `p` — not a bit-reinterpretation of
the bare address, which would have no provenance to carry. -/
theorem with_addr_wrapping_offset_spec (p : Ptr) (a : Nat)
    (ha : a < usizeMOD) :
    p.with_addr a
      = ((p.cast.wrapping_offset 1
          (isizeWrap (usizeAsIsize a - usizeAsIsize p.address))).cast)
    ∧ (p.with_addr a).addr = a
    ∧ (p.with_addr a).prov = p.prov := by
  refine ⟨rfl, ?_, ?_⟩
  · unfold Ptr.with_addr
    rw [Ptr.cast_eq, Ptr.cast_eq, Ptr.wrapping_offset_addr, Ptr.address_eq]
    have key : ((p.addr : Int)
        + isizeWrap (usizeAsIsize a - usizeAsIsize p.addr) * ((1 : Nat) : Int))
          % (usizeMOD : Int) = (a : Int) := by
      rw [Nat.cast_one, mul_one, Int.add_emod, isizeWrap_emod, Int.sub_emod]
      unfold usizeAsIsize
      rw [isizeWrap_emod, isizeWrap_emod, ← Int.sub_emod, ← Int.add_emod,
        add_sub_cancel]
      exact Int.emod_eq_of_lt (by positivity) (by exact_mod_cast ha)
    unfold usizeWrap
    rw [key]
    exact Int.toNat_natCast a
  · unfold Ptr.with_addr
    rw [Ptr.cast_eq, Ptr.cast_eq, Ptr.wrapping_offset_prov]

/-- Witness for C8 at `p = (7, 100)`, target address 3. -/
theorem with_addr_wrapping_offset_spec_witness :
    (Ptr.with_addr ⟨7, 100⟩ 3).addr = 3
    ∧ (Ptr.with_addr ⟨7, 100⟩ 3).prov = 7 :=
  ⟨(with_addr_wrapping_offset_spec ⟨7, 100⟩ 3 (by decide)).2.1,
   (with_addr_wrapping_offset_spec ⟨7, 100⟩ 3 (by decide)).2.2⟩

/-- C1: on a valid owner instance (non-null base address, field offset in
bounds of the address space and at most `isize::MAX`), `get_field` returns
a reference at address `base_address + BYTE_OFFSET` with the owner's
provenance, `get_field_mut` returns the same address mutably, neither
fails (no panic, no undefined behavior), and the value read through the
returned reference is the field's value obtained by direct (named) access
under the layout the descriptor records. -/
theorem get_field_round_trip {I : Nat} (Ty : FieldDescriptor I)
    (owner : Ptr) (α : Type) (readT : Mem → Nat → α) (mem : Mem)
    (hnn : owner.addr ≠ 0)
    (hoff : Ty.BYTE_OFFSET ≤ isizeMAXv)
    (hfit : owner.addr + Ty.BYTE_OFFSET < usizeMOD) :
    get_field Ty owner
        = RustOutcome.ok ⟨owner.prov, owner.addr + Ty.BYTE_OFFSET⟩
    ∧ get_field_mut Ty owner
        = RustOutcome.ok ⟨owner.prov, owner.addr + Ty.BYTE_OFFSET⟩
    ∧ ∀ q, get_field Ty owner = RustOutcome.ok q →
        readT mem q.addr
          = namedFieldAccess readT mem owner.addr Ty.BYTE_OFFSET := by
  have haddr : ((owner.cast.add 1 Ty.BYTE_OFFSET).cast).addr
      = owner.addr + Ty.BYTE_OFFSET := by
    rw [Ptr.cast_eq, Ptr.cast_eq, Ptr.add, Ptr.offset_addr]
    exact usizeWrap_add_small owner.addr Ty.BYTE_OFFSET hoff hfit
  have hprov : ((owner.cast.add 1 Ty.BYTE_OFFSET).cast).prov = owner.prov := by
    rw [Ptr.cast_eq, Ptr.cast_eq, Ptr.add, Ptr.offset_prov]
  have hq : (owner.cast.add 1 Ty.BYTE_OFFSET).cast
      = (⟨owner.prov, owner.addr + Ty.BYTE_OFFSET⟩ : Ptr) := by
    cases h : (owner.cast.add 1 Ty.BYTE_OFFSET).cast
    rw [h] at haddr hprov
    simp only at haddr hprov
    rw [haddr, hprov]
  have hne : ((owner.cast.add 1 Ty.BYTE_OFFSET).cast).addr ≠ 0 := by
    rw [haddr]
    omega
  refine ⟨?_, ?_, ?_⟩
  · unfold get_field Ptr.as_ref
    rw [if_neg hne, hq]
    rfl
  · unfold get_field_mut Ptr.as_mut
    rw [if_neg hne, hq]
    rfl
  · intro q hget
    have : RustOutcome.ok q
        = RustOutcome.ok (⟨owner.prov, owner.addr + Ty.BYTE_OFFSET⟩ : Ptr) := by
      rw [← hget]
      unfold get_field Ptr.as_ref
      rw [if_neg hne, hq]
      rfl
    rw [RustOutcome.ok.injEq] at this
    rw [this]
    rfl

/-- Witness for C1: the `scratch_couch` descriptor (offset 8) applied to an
owner based at address 16 yields the reference at address 24. -/
theorem get_field_round_trip_witness :
    get_field meowFieldDescr ⟨0, 16⟩ = RustOutcome.ok ⟨0, 24⟩
    ∧ get_field_mut meowFieldDescr ⟨0, 16⟩ = RustOutcome.ok ⟨0, 24⟩ :=
  ⟨(get_field_round_trip meowFieldDescr ⟨0, 16⟩ Nat (fun m a => m a)
      (fun a => a) (by decide) (by decide) (by decide)).1,
   (get_field_round_trip meowFieldDescr ⟨0, 16⟩ Nat (fun m a => m a)
      (fun a => a) (by decide) (by decide) (by decide)).2.1⟩

/-- C2 counterexample: the source only provides the stored index constants
as defaults; a well-typed implementation of `FieldDescriptor<3>` whose
stored `DECLARATION_INDEX` is 5 exists (compiles), so a disagreeing
descriptor is not rejected. -/
theorem descriptor_index_override_exists :
    mismatchedFieldDescr.DECLARATION_INDEX = 5
    ∧ ¬ mismatchedFieldDescr.DECLARATION_INDEX = 3 := by
  constructor <;> decide

/-- C2 (amended): for `FieldDescriptor<I>`, `VariantDescriptor<I>` and
`ParameterDescriptor<I>`, the stored index constant defaults to the const
parameter `I`, so every implementation that does not override it stores
exactly `I`; the source does not reject an implementation that overrides
the constant with a disagreeing value. -/
theorem descriptor_index_defaults_to_param :
    ∀ (I : Nat) (O T : Type) (nm : String) (off : Nat)
      (ed : EnumDescriptor) (d : Discriminant ed.Ty),
      ({ OwnerType := O, Ty := T, NAME := nm, BYTE_OFFSET := off } :
          FieldDescriptor I).DECLARATION_INDEX = I
      ∧ ({ OwnerType := ed, NAME := nm, DISCRIMINANT := d } :
          VariantDescriptor I).DECLARATION_INDEX = I
      ∧ ({ OwnerType := O, Ty := T, NAME := nm } :
          ParameterDescriptor I).PARAMETER_INDEX = I :=
  fun _ _ _ _ _ _ _ => ⟨rfl, rfl, rfl⟩

/-- C9: a visitor that does not override the defaulted mutable visitation
method gets, for each of the six visitor capabilities, a mutable variant
that returns exactly the value of the corresponding immutable method on the
same visitor and leaves the visitor state unchanged. -/
theorem visitor_mut_defaults_forward :
    ∀ (V Output : Type) (v : V)
      (fs : V → StructDescriptor → Output) (sd : StructDescriptor)
      (fe : V → EnumDescriptor → Output) (ed : EnumDescriptor)
      (ff : V → FunctionDescriptor → Output) (fnd : FunctionDescriptor)
      (I : Nat)
      (ffd : V → (J : Nat) → FieldDescriptor J → Output)
      (fld : FieldDescriptor I)
      (fv : V → (J : Nat) → VariantDescriptor J → Output)
      (vd : VariantDescriptor I)
      (fp : V → (J : Nat) → ParameterDescriptor J → Output)
      (pd : ParameterDescriptor I),
      ({ visit_struct := fs } :
          StructDescriptorVisitor V Output).visit_struct_mut v sd
        = (fs v sd, v)
      ∧ ({ visit_enum := fe } :
          EnumDescriptorVisitor V Output).visit_enum_mut v ed
        = (fe v ed, v)
      ∧ ({ visit_function := ff } :
          FunctionDescriptorVisitor V Output).visit_function_mut v fnd
        = (ff v fnd, v)
      ∧ ({ visit_field := ffd } :
          FieldDescriptorVisitor V Output).visit_field_mut v I fld
        = (ffd v I fld, v)
      ∧ ({ visit_variant := fv } :
          VariantDescriptorVisitor V Output).visit_variant_mut v I vd
        = (fv v I vd, v)
      ∧ ({ visit_parameter := fp } :
          ParameterDescriptorVisitor V Output).visit_parameter_mut v I pd
        = (fp v I pd, v) :=
  fun _ _ _ _ _ _ _ _ _ _ _ _ _ _ _ _ =>
    ⟨rfl, rfl, rfl, rfl, rfl, rfl⟩

/-- C10: the `NoType` sentinel itself implements `AdtDescriptor` and
`StructDescriptor`: its `ID` is `AdtId::Struct`, its `NAME` is
`"core::introwospection::NoType"`, its associated `Type` is `NoType`, and
its `FIELD_COUNT` is 0, inherited from the trait default — the sentinel
satisfies the same descriptor contract as a real zero-field struct. -/
theorem noType_descriptor_contract :
    NoType.structDescriptor.ID = AdtId.Struct
    ∧ NoType.structDescriptor.NAME = "core::introwospection::NoType"
    ∧ NoType.structDescriptor.Ty = NoType
    ∧ NoType.structDescriptor.FIELD_COUNT = 0
    ∧ NoType.structDescriptor.toAdtDescriptor = NoType.adtDescriptor :=
  ⟨rfl, rfl, rfl, rfl, rfl⟩
